import Mathlib

/-!
Shallow embedding of the appearance-resolution engine in `src/index.ts` of the
theme-sync extension: the override-file reader, the OSC 11 probe gating logic
(throttle, circuit breaker, last-known-good cache), the OS-level fallback and
the probe helper script's reply parsing and luminance classification, together
with the sparse persistence of the settings file (`saveConfig`).

Timestamps (`Date.now()` values and intervals) are modelled as `Int`.  The
effectful boundaries — the subprocess running the probe script and the
platform-specific OS queries — enter the model as oracle fields of `World`
(`probeResult`, `osResult`): a resolution step that does not consult a source
is one whose outcome is independent of the corresponding oracle field.
-/

namespace ThemeSync

set_option maxRecDepth 8000

/-- The two-valued appearance classification (`type Appearance`). -/
inductive Appearance
  | dark
  | light
  deriving DecidableEq, Repr

/-- `type OverrideAppearance = Appearance | "auto"`. -/
inductive OverrideAppearance
  | dark
  | light
  | auto
  deriving DecidableEq, Repr

/-- Injection used to state facts uniformly for the dark and light cases. -/
def Appearance.toOverride : Appearance → OverrideAppearance
  | Appearance.dark => OverrideAppearance.dark
  | Appearance.light => OverrideAppearance.light

/-- `parseOverrideAppearance(value)`: the raw `appearance` JSON field, when it
is a string, validated against the fixed value set; anything else is `null`.
A missing or non-string field is modelled as `none`. -/
def parseOverrideAppearance (value : Option String) : Option OverrideAppearance :=
  match value with
  | none => none
  | some s =>
    if s = "dark" then some OverrideAppearance.dark
    else if s = "light" then some OverrideAppearance.light
    else if s = "auto" then some OverrideAppearance.auto
    else none

/-- Outcome of `Date.parse(updatedAt)` on the raw `updatedAt` field:
field missing or not a string / string but `Date.parse` yields `NaN` /
parses to a timestamp. -/
inductive UpdatedAtField
  | missing
  | unparsable
  | parsed (time : Int)
  deriving DecidableEq, Repr

/-- What `readFile` + `JSON.parse` yield for the override file: an I/O or
parse error (the `catch` path), a parsed value that is not an object, or an
object with its `appearance` and `updatedAt` fields. -/
inductive OverrideFileState
  | unreadable
  | notObject
  | obj (appearance : Option String) (updatedAt : UpdatedAtField)
  deriving DecidableEq, Repr

/-- `readOverrideFile(filePath, maxAgeMs)` evaluated at time `now`:
validates the `appearance` field, and when `maxAgeMs > 0` requires a parsable
`updatedAt` with `now - time ≤ maxAgeMs`; every failure yields `none`. -/
def readOverrideFile (file : OverrideFileState) (maxAgeMs : Int) (now : Int) :
    Option OverrideAppearance :=
  match file with
  | OverrideFileState.unreadable => none
  | OverrideFileState.notObject => none
  | OverrideFileState.obj appearanceField updatedAtField =>
    match parseOverrideAppearance appearanceField with
    | none => none
    | some appearance =>
      if maxAgeMs > 0 then
        match updatedAtField with
        | UpdatedAtField.missing => none
        | UpdatedAtField.unparsable => none
        | UpdatedAtField.parsed time =>
          if now - time > maxAgeMs then none else some appearance
      else
        some appearance

/-- `const OSC11_MIN_INTERVAL_MS = 15_000`. -/
def OSC11_MIN_INTERVAL_MS : Int := 15000

/-- `const OSC11_DISABLE_AFTER_FAILURES = 3`. -/
def OSC11_DISABLE_AFTER_FAILURES : Nat := 3

/-- `const OSC11_DISABLE_COOLDOWN_MS = 60_000`. -/
def OSC11_DISABLE_COOLDOWN_MS : Int := 60000

/-- Whitespace as `String.prototype.trim` strips it (ASCII part). -/
def isSpaceChar (c : Char) : Bool :=
  c = ' ' ∨ c = '\t' ∨ c = '\n' ∨ c = '\r' ∨ c = '\x0b' ∨ c = '\x0c'

/-- `trim()` over the character list: strip whitespace from both ends. -/
def trimChars (cs : List Char) : List Char :=
  ((cs.dropWhile isSpaceChar).reverse.dropWhile isSpaceChar).reverse

/-- `toLowerCase()` on one character (ASCII range, which covers the sentinel
values `"0"`, `"false"`, `"off"` this normalisation is compared against). -/
def lowerChar (c : Char) : Char :=
  if 'A' ≤ c ∧ c ≤ 'Z' then Char.ofNat (c.toNat + 32) else c

/-- `isOsc11Enabled()`: reads `PI_SYSTEM_THEME_OSC11_ENABLED` (default `"1"`),
trims and lower-cases it, and treats everything except `"0"`, `"false"`,
`"off"` as enabled. -/
def isOsc11Enabled (env : Option String) : Bool :=
  let raw := (trimChars (match env with | none => "1" | some s => s).toList).map lowerChar
  !(decide (raw = ("0").toList) || decide (raw = ("false").toList) ||
    decide (raw = ("off").toList))

/-- `getOsc11MinIntervalMs()`: `PI_SYSTEM_THEME_OSC11_MIN_INTERVAL_MS`
modelled as absent-or-empty (`none`), present but `Number.parseInt` gives
`NaN` (`some none`), or parsed to an integer (`some (some n)`), clamped from
below by 1000. -/
def getOsc11MinIntervalMs (env : Option (Option Int)) : Int :=
  match env with
  | none => OSC11_MIN_INTERVAL_MS
  | some none => OSC11_MIN_INTERVAL_MS
  | some (some parsed) => max 1000 parsed

/-- `type Osc11State` — the process-lifetime probe state. -/
structure Osc11State where
  lastCheckedAt : Int
  lastAppearance : Option Appearance
  failures : Nat
  disabledUntil : Int
  deriving DecidableEq, Repr

/-- The `chosen` field of the trace: `"override" | "osc11" | "osc11-cache" |
"os" | "none"` (the spec calls the middle two `probe-fresh` / `probe-cache`). -/
inductive Chosen
  | override
  | osc11
  | osc11Cache
  | os
  | none
  deriving DecidableEq, Repr

/-- The `osc11SkipReason` strings, with their numeric/timestamp payloads. -/
inductive SkipReason
  | cooldown (ms : Int)
  | cooldownUntil (time : Int)
  | throttled (ms : Int)
  | disabledByMode
  | disabled
  deriving DecidableEq, Repr

/-- `type DetectionTrace`. -/
structure DetectionTrace where
  chosen : Chosen
  appearance : Option Appearance
  override : Option OverrideAppearance
  osc11Enabled : Bool
  osc11Attempted : Bool
  osc11Result : Option Appearance
  osc11UsedCache : Bool
  osc11SkipReason : Option SkipReason
  osc11Failures : Nat
  osResult : Option Appearance
  deriving DecidableEq, Repr

/-- The `options?: { allowOsc11?: boolean; forceOsc11?: boolean }` argument;
an absent options object is `{ allowOsc11 := false, forceOsc11 := false }`
because the code tests `options?.x === true`. -/
structure ResolveOptions where
  allowOsc11 : Bool
  forceOsc11 : Bool
  deriving DecidableEq, Repr

/-- The ambient inputs of one resolution call: the override file's content,
the two environment variables the engine reads, the current time, and the
oracle answers of the two effectful sources. -/
structure World where
  file : OverrideFileState
  osc11EnabledEnv : Option String
  minIntervalEnv : Option (Option Int)
  now : Int
  probeResult : Option Appearance
  osResult : Option Appearance
  deriving DecidableEq, Repr

/-- The trace as initialised at the top of `resolveAppearanceWithTrace`. -/
def baseTrace (w : World) (maxAgeMs : Int) (st : Osc11State) : DetectionTrace :=
  { chosen := Chosen.none
    appearance := none
    override := readOverrideFile w.file maxAgeMs w.now
    osc11Enabled := isOsc11Enabled w.osc11EnabledEnv
    osc11Attempted := false
    osc11Result := none
    osc11UsedCache := false
    osc11SkipReason := none
    osc11Failures := st.failures
    osResult := none }

/-- The final step of the engine: `detectOSAppearance()` and the
`if (fromOS)` assignment. -/
def osPhase (base : DetectionTrace) (w : World) (st : Osc11State) :
    DetectionTrace × Osc11State :=
  match w.osResult with
  | some fromOS =>
    ({ base with
        osResult := some fromOS
        chosen := Chosen.os
        appearance := some fromOS }, st)
  | none => ({ base with osResult := none }, st)

/-- The `if (osc11State.lastAppearance)` cache check that follows a skipped
or failed probe, falling to the OS phase when no cache exists. -/
def afterProbePhase (base : DetectionTrace) (w : World) (st : Osc11State) :
    DetectionTrace × Osc11State :=
  match st.lastAppearance with
  | some cached =>
    ({ base with
        osc11UsedCache := true
        chosen := Chosen.osc11Cache
        appearance := some cached }, st)
  | none => osPhase base w st

/-- `resolveAppearanceWithTrace(config, osc11State, options)`, returning the
trace together with the updated probe state.  `maxAgeMs` is
`config.overrideMaxAgeMs`; the override-file path is folded into `w.file`. -/
def resolveAppearanceWithTrace (w : World) (maxAgeMs : Int) (st : Osc11State)
    (opts : ResolveOptions) : DetectionTrace × Osc11State :=
  let base := baseTrace w maxAgeMs st
  if base.override = some OverrideAppearance.dark then
    ({ base with chosen := Chosen.override, appearance := some Appearance.dark }, st)
  else if base.override = some OverrideAppearance.light then
    ({ base with chosen := Chosen.override, appearance := some Appearance.light }, st)
  else if isOsc11Enabled w.osc11EnabledEnv && (opts.forceOsc11 || opts.allowOsc11) then
    let minIntervalMs := getOsc11MinIntervalMs w.minIntervalEnv
    if st.disabledUntil ≤ w.now ∧
        (opts.forceOsc11 = true ∨ minIntervalMs ≤ w.now - st.lastCheckedAt) then
      match w.probeResult with
      | some fromTerminal =>
        ({ base with
            osc11Attempted := true
            osc11Result := some fromTerminal
            osc11Failures := 0
            chosen := Chosen.osc11
            appearance := some fromTerminal },
         { lastCheckedAt := w.now
           lastAppearance := some fromTerminal
           failures := 0
           disabledUntil := st.disabledUntil })
      | none =>
        if OSC11_DISABLE_AFTER_FAILURES ≤ st.failures + 1 then
          afterProbePhase
            { base with
                osc11Attempted := true
                osc11Failures := 0
                osc11SkipReason := some (SkipReason.cooldown OSC11_DISABLE_COOLDOWN_MS) }
            w
            { lastCheckedAt := w.now
              lastAppearance := st.lastAppearance
              failures := 0
              disabledUntil := w.now + OSC11_DISABLE_COOLDOWN_MS }
        else
          afterProbePhase
            { base with
                osc11Attempted := true
                osc11Failures := st.failures + 1 }
            w
            { lastCheckedAt := w.now
              lastAppearance := st.lastAppearance
              failures := st.failures + 1
              disabledUntil := st.disabledUntil }
    else
      afterProbePhase
        { base with
            osc11SkipReason :=
              some (if w.now < st.disabledUntil then
                      SkipReason.cooldownUntil st.disabledUntil
                    else SkipReason.throttled minIntervalMs) }
        w st
  else
    osPhase
      { base with
          osc11SkipReason :=
            some (if isOsc11Enabled w.osc11EnabledEnv then SkipReason.disabledByMode
                  else SkipReason.disabled) }
      w st

/-- `resolveAppearance` — the decision without the trace. -/
def resolveAppearance (w : World) (maxAgeMs : Int) (st : Osc11State)
    (opts : ResolveOptions) : Option Appearance :=
  (resolveAppearanceWithTrace w maxAgeMs st opts).1.appearance

/-- `resetOsc11State()` — the session (re-)entry reset of the probe state. -/
def resetOsc11State : Osc11State :=
  { lastCheckedAt := 0, lastAppearance := none, failures := 0, disabledUntil := 0 }

/-- `tick(ctx)` with no options object: both flags read as `false`. -/
def tickDefaultOptions : ResolveOptions := { allowOsc11 := false, forceOsc11 := false }

/-- The options the `/system-theme-refresh` handler passes:
`{ forceOsc11: true }`. -/
def refreshOptions : ResolveOptions := { allowOsc11 := false, forceOsc11 := true }

/-- The options `applyOnSessionEnter` passes to `tick`:
`{ allowOsc11: true, forceOsc11: true }`. -/
def sessionEnterOptions : ResolveOptions := { allowOsc11 := true, forceOsc11 := true }

/-- The resolution performed by `/system-theme-refresh`: `resetOsc11State()`
followed by a forced resolve. -/
def refreshTriggerResolve (w : World) (maxAgeMs : Int) : DetectionTrace × Osc11State :=
  resolveAppearanceWithTrace w maxAgeMs resetOsc11State refreshOptions

/-- The resolution performed by `applyOnSessionEnter` (session start/switch):
`resetOsc11State()` followed by a forced, allowed resolve. -/
def sessionEnterResolve (w : World) (maxAgeMs : Int) : DetectionTrace × Osc11State :=
  resolveAppearanceWithTrace w maxAgeMs resetOsc11State sessionEnterOptions

/-- The resolution performed by the `/system-theme-push` handler: it calls
`tick(ctx)` with no options and the current (not reset) probe state. -/
def pushTickResolve (w : World) (maxAgeMs : Int) (st : Osc11State) :
    DetectionTrace × Osc11State :=
  resolveAppearanceWithTrace w maxAgeMs st tickDefaultOptions

/-! ## Configuration persistence (`saveConfig`) -/

/-- `type Config`. -/
structure Config where
  darkTheme : String
  lightTheme : String
  pollMs : Int
  overrideFile : String
  overrideMaxAgeMs : Int
  deriving DecidableEq, Repr

/-- `DEFAULT_CONFIG`, parameterised by the home directory that
`os.homedir()` returns. -/
def DEFAULT_CONFIG (home : String) : Config :=
  { darkTheme := "dark"
    lightTheme := "light"
    pollMs := 8000
    overrideFile := home ++ "/.pi/agent/system-theme-override.json"
    overrideMaxAgeMs := 60000 }

/-- The sparse `overrides` object `saveConfig` builds: only `darkTheme`,
`lightTheme` and `pollMs` are ever persisted. -/
structure SavedOverrides where
  darkTheme : Option String
  lightTheme : Option String
  pollMs : Option Int
  deriving DecidableEq, Repr

/-- The filesystem effect of `saveConfig`: delete the settings file
(`rm(GLOBAL_CONFIG_PATH, force)`) or write the sparse overrides object. -/
inductive SaveAction
  | delete
  | write (overrides : SavedOverrides)
  deriving DecidableEq, Repr

/-- `saveConfig(config)`: a key is included only when it differs from its
default; an empty overrides object deletes the file instead. -/
def saveConfig (home : String) (config : Config) : SaveAction :=
  let overrides : SavedOverrides :=
    { darkTheme :=
        if config.darkTheme ≠ (DEFAULT_CONFIG home).darkTheme then some config.darkTheme
        else none
      lightTheme :=
        if config.lightTheme ≠ (DEFAULT_CONFIG home).lightTheme then some config.lightTheme
        else none
      pollMs :=
        if config.pollMs ≠ (DEFAULT_CONFIG home).pollMs then some config.pollMs
        else none }
  if overrides.darkTheme = none ∧ overrides.lightTheme = none ∧ overrides.pollMs = none then
    SaveAction.delete
  else
    SaveAction.write overrides

/-! ## The probe helper script (`OSC11_QUERY_SCRIPT`)

Reply parsing: the script matches the response against the pattern
`rgb:([0-9a-fA-F]{2,8})/([0-9a-fA-F]{2,8})/([0-9a-fA-F]{2,8})` (first match,
leftmost start).  Because `/` is not a hex digit, a greedy group of 2–8 hex
digits followed by a literal `/` can only match a maximal run of hex digits
whose length lies in 2..8 (backtracking to a shorter prefix always leaves a
hex digit in the position the `/` must occupy); the third group, with nothing
after it, greedily takes the first `min 8 len` digits of a run of length
`len ≥ 2`.  `findRgb` below implements exactly that. -/

/-- The character class `[0-9a-fA-F]`. -/
def isHexDigit (c : Char) : Bool :=
  (decide ('0' ≤ c) && decide (c ≤ '9')) ||
  (decide ('a' ≤ c) && decide (c ≤ 'f')) ||
  (decide ('A' ≤ c) && decide (c ≤ 'F'))

/-- Numeric value of one hex digit (as `parseInt` base 16 reads it). -/
def hexDigitVal (c : Char) : Nat :=
  if '0' ≤ c ∧ c ≤ '9' then c.toNat - ('0').toNat
  else if 'a' ≤ c ∧ c ≤ 'f' then c.toNat - ('a').toNat + 10
  else if 'A' ≤ c ∧ c ≤ 'F' then c.toNat - ('A').toNat + 10
  else 0

/-- `parseInt(s, 16)` on a string of hex digits. -/
def parseHexDigits (cs : List Char) : Nat :=
  cs.foldl (fun acc c => 16 * acc + hexDigitVal c) 0

/-- `to8Bit(hex)`: a 1-digit channel is padded with itself
(`padEnd(2, lastChar)`); otherwise the first two hex digits — the most
significant byte — are read (`slice(0, 2)` for length > 2, the whole string
for length 2). -/
def to8Bit (hex : List Char) : Nat :=
  match hex with
  | [] => 0
  | [c] => parseHexDigits [c, c]
  | c1 :: c2 :: _ => parseHexDigits [c1, c2]

/-- One regex channel group `([0-9a-fA-F]{2,8})` that must be followed by a
non-hex character: it captures a maximal hex run of length 2..8. -/
def matchChannel (cs : List Char) : Option (List Char × List Char) :=
  let run := (cs.span isHexDigit).1
  let rest := (cs.span isHexDigit).2
  if 2 ≤ run.length ∧ run.length ≤ 8 then some (run, rest) else none

/-- The pattern after the literal `rgb:`: two `/`-terminated channel groups
and a final channel group with no trailing anchor. -/
def rgbTail (cs : List Char) : Option (List Char × List Char × List Char) :=
  match matchChannel cs with
  | none => none
  | some (g1, rest1) =>
    match rest1 with
    | '/' :: rest2 =>
      match matchChannel rest2 with
      | none => none
      | some (g2, rest3) =>
        match rest3 with
        | '/' :: rest4 =>
          let run3 := (rest4.span isHexDigit).1
          if 2 ≤ run3.length then some (g1, g2, run3.take 8) else none
        | _ => none
    | _ => none

/-- One attempt of the pattern at the current start position: the literal
`rgb:` followed by `rgbTail`. -/
def startMatch (c : Char) (cs : List Char) : Option (List Char × List Char × List Char) :=
  match c, cs with
  | 'r', 'g' :: 'b' :: ':' :: rest => rgbTail rest
  | _, _ => none

/-- `response.match(/rgb:.../)`: scan left to right for an occurrence of the
literal `rgb:` whose tail matches; on failure advance the start by one. -/
def findRgb : List Char → Option (List Char × List Char × List Char)
  | [] => none
  | c :: cs =>
    match startMatch c cs with
    | some m => some m
    | none => findRgb cs

/-! ### Exact model of the IEEE-754 double-precision luminance computation

The script computes `0.299 * r + 0.587 * g + 0.114 * b` in JavaScript
numbers, i.e. IEEE-754 binary64 with round-to-nearest-even, and compares the
result with 128.  All values arising here are nonnegative and far from
overflow and subnormal range, so a double is represented exactly as
`mantissa * 2 ^ exponent` with a `Nat` mantissa of at most 53 bits
(exceptionally 54 when rounding up to a power of two, which is still exact).
Each operation computes the exact product/sum and rounds the mantissa once to
53 bits, which is precisely the IEEE behaviour for one multiplication or
addition. -/

/-- A nonnegative binary64 value `mantissa * 2 ^ exponent`. -/
structure FloatRep where
  mantissa : Nat
  exponent : Int
  deriving DecidableEq, Repr

/-- Number of binary digits of `n`, with structural fuel so that it reduces
by kernel computation; 256 bits cover every mantissa arising here. -/
def bitLenAux : Nat → Nat → Nat
  | 0, _ => 0
  | fuel + 1, n => if n = 0 then 0 else bitLenAux fuel (n / 2) + 1

/-- Number of binary digits of `n` (0 for 0). -/
def bitLen (n : Nat) : Nat := bitLenAux 256 n

/-- Round a `mantissa * 2 ^ exponent` value to 53 mantissa bits,
round-to-nearest, ties to even. -/
def roundMantissa (m : Nat) (e : Int) : FloatRep :=
  if m < 2 ^ 53 then { mantissa := m, exponent := e }
  else
    let k := bitLen m - 53
    let q := m / 2 ^ k
    let r := m % 2 ^ k
    let half := 2 ^ (k - 1)
    if half < r ∨ (r = half ∧ q % 2 = 1) then { mantissa := q + 1, exponent := e + k }
    else { mantissa := q, exponent := e + k }

/-- Double multiplication: exact product, one rounding. -/
def floatMul (a b : FloatRep) : FloatRep :=
  roundMantissa (a.mantissa * b.mantissa) (a.exponent + b.exponent)

/-- Double addition: exact sum after aligning exponents, one rounding. -/
def floatAdd (a b : FloatRep) : FloatRep :=
  if a.exponent ≤ b.exponent then
    roundMantissa (a.mantissa + b.mantissa * 2 ^ (b.exponent - a.exponent).toNat) a.exponent
  else
    roundMantissa (a.mantissa * 2 ^ (a.exponent - b.exponent).toNat + b.mantissa) b.exponent

/-- Comparison of two nonnegative doubles. -/
def floatLt (a b : FloatRep) : Bool :=
  if a.exponent ≤ b.exponent then
    decide (a.mantissa < b.mantissa * 2 ^ (b.exponent - a.exponent).toNat)
  else
    decide (a.mantissa * 2 ^ (a.exponent - b.exponent).toNat < b.mantissa)

/-- The double nearest to the decimal fraction `p / q` (round to nearest,
ties to even; a sticky bit records a nonzero remainder so that an inexact
quotient is never mistaken for a tie). -/
def decimalToFloat (p q : Nat) : FloatRep :=
  if p = 0 then { mantissa := 0, exponent := 0 }
  else
    let s := 64 + bitLen q
    let m0 := p * 2 ^ s / q
    let r := p * 2 ^ s % q
    roundMantissa (2 * m0 + (if r = 0 then 0 else 1)) (-(s + 1 : Int))

/-- An integer below `2 ^ 53` as an exact double. -/
def natFloat (n : Nat) : FloatRep := { mantissa := n, exponent := 0 }

/-- The double value of the literal `0.299`. -/
def float299 : FloatRep := decimalToFloat 299 1000

/-- The double value of the literal `0.587`. -/
def float587 : FloatRep := decimalToFloat 587 1000

/-- The double value of the literal `0.114`. -/
def float114 : FloatRep := decimalToFloat 114 1000

/-- `0.299 * r + 0.587 * g + 0.114 * b` exactly as binary64 evaluates it
(left-associated additions, one rounding per operation). -/
def doubleLuminance (r g b : Nat) : FloatRep :=
  floatAdd
    (floatAdd (floatMul float299 (natFloat r)) (floatMul float587 (natFloat g)))
    (floatMul float114 (natFloat b))

/-- `luminance < 128` as the script computes it. -/
def doubleLumIsDark (r g b : Nat) : Bool :=
  floatLt (doubleLuminance r g b) (natFloat 128)

/-- The appearance printed by the probe helper script for a given terminal
reply, as the parent interprets it: no (full) match means no output and the
probe yields nothing. -/
def probeScriptOutcome (response : List Char) : Option Appearance :=
  match findRgb response with
  | none => none
  | some (g1, g2, g3) =>
    if doubleLumIsDark (to8Bit g1) (to8Bit g2) (to8Bit g3) then some Appearance.dark
    else some Appearance.light

/-! ## Concrete inputs used by witnesses and counterexamples -/

/-- `{ allowOsc11: true }` without force — probing allowed, throttle active. -/
def allowOnlyOptions : ResolveOptions := { allowOsc11 := true, forceOsc11 := false }

/-- A fresh, valid `dark` override record, seen at time 1000 with the default
60 s max-age; probe and OS would both answer `light`. -/
def witOverrideWorld : World :=
  { file := OverrideFileState.obj (some ("dark")) (UpdatedAtField.parsed 0)
    osc11EnabledEnv := none
    minIntervalEnv := none
    now := 1000
    probeResult := some Appearance.light
    osResult := some Appearance.light }

/-- No override file; a probe would answer `dark`; no OS answer. -/
def witForceWorld : World :=
  { file := OverrideFileState.unreadable
    osc11EnabledEnv := none
    minIntervalEnv := none
    now := 5
    probeResult := some Appearance.dark
    osResult := none }

/-- A probe state checked at time 5 — at `now = 5` the 15 s minimum interval
has not elapsed. -/
def witThrottleState : Osc11State :=
  { lastCheckedAt := 5, lastAppearance := none, failures := 0, disabledUntil := 0 }

/-- The world seen by the `/system-theme-push` counterexample: a fresh
`auto` override record falls through, a probe would answer `dark`. -/
def cexPushWorld : World :=
  { file := OverrideFileState.obj (some ("auto")) (UpdatedAtField.parsed 0)
    osc11EnabledEnv := none
    minIntervalEnv := none
    now := 0
    probeResult := some Appearance.dark
    osResult := none }

/-- No override, probe yields nothing, the OS reports `light`; both
environment variables unset. -/
def cexOsWorld : World :=
  { file := OverrideFileState.unreadable
    osc11EnabledEnv := none
    minIntervalEnv := none
    now := 0
    probeResult := none
    osResult := some Appearance.light }

/-- Two consecutive failures already recorded; the throttle interval has long
elapsed and no cooldown is active. -/
def witBreakerState : Osc11State :=
  { lastCheckedAt := -20000, lastAppearance := none, failures := 2, disabledUntil := 0 }

/-- A failing world: no override, probe times out, no OS answer. -/
def witFailWorld : World :=
  { file := OverrideFileState.unreadable
    osc11EnabledEnv := none
    minIntervalEnv := none
    now := 100
    probeResult := none
    osResult := none }

/-- A probe that last succeeded with `dark` 10 ms ago. -/
def witCacheState : Osc11State :=
  { lastCheckedAt := 90, lastAppearance := some Appearance.dark, failures := 0
    disabledUntil := 0 }

/-- A world whose OS reader would answer `light`, throttling the probe. -/
def witCacheWorld : World :=
  { file := OverrideFileState.unreadable
    osc11EnabledEnv := none
    minIntervalEnv := none
    now := 100
    probeResult := none
    osResult := some Appearance.light }

/-- A cached `dark` probe success obtained a billion milliseconds ago. -/
def witAncientCacheState : Osc11State :=
  { lastCheckedAt := -1000000000, lastAppearance := some Appearance.dark, failures := 0
    disabledUntil := 0 }

/-- A world far in the future of the cached success, with a failing probe. -/
def witAncientWorld : World :=
  { file := OverrideFileState.unreadable
    osc11EnabledEnv := none
    minIntervalEnv := none
    now := 1000000000
    probeResult := none
    osResult := some Appearance.light }

/-- A configuration differing from the defaults only in the dark theme. -/
def witConfig : Config :=
  { darkTheme := "gruvbox"
    lightTheme := "light"
    pollMs := 8000
    overrideFile := "/tmp/override.json"
    overrideMaxAgeMs := 60000 }

/-! ## Branch equations for the resolver -/

theorem osPhase_eq_some (base : DetectionTrace) (w : World) (st : Osc11State)
    (a : Appearance) (h : w.osResult = some a) :
    osPhase base w st =
      ({ base with osResult := some a, chosen := Chosen.os, appearance := some a }, st) := by
  unfold osPhase
  rw [h]

theorem osPhase_eq_none (base : DetectionTrace) (w : World) (st : Osc11State)
    (h : w.osResult = none) :
    osPhase base w st = ({ base with osResult := none }, st) := by
  unfold osPhase
  rw [h]

theorem afterProbePhase_eq_some (base : DetectionTrace) (w : World) (st : Osc11State)
    (a : Appearance) (h : st.lastAppearance = some a) :
    afterProbePhase base w st =
      ({ base with osc11UsedCache := true, chosen := Chosen.osc11Cache,
                   appearance := some a }, st) := by
  unfold afterProbePhase
  rw [h]

theorem afterProbePhase_eq_none (base : DetectionTrace) (w : World) (st : Osc11State)
    (h : st.lastAppearance = none) :
    afterProbePhase base w st = osPhase base w st := by
  unfold afterProbePhase
  rw [h]

theorem resolve_of_override (w : World) (m : Int) (st : Osc11State)
    (opts : ResolveOptions) (a : Appearance)
    (h : readOverrideFile w.file m w.now = some a.toOverride) :
    resolveAppearanceWithTrace w m st opts =
      ({ baseTrace w m st with chosen := Chosen.override, appearance := some a }, st) := by
  cases a <;>
    simp only [resolveAppearanceWithTrace, baseTrace, Appearance.toOverride, h] <;>
    simp

theorem resolve_not_allowed (w : World) (m : Int) (st : Osc11State)
    (opts : ResolveOptions)
    (h1 : readOverrideFile w.file m w.now ≠ some OverrideAppearance.dark)
    (h2 : readOverrideFile w.file m w.now ≠ some OverrideAppearance.light)
    (h3 : (isOsc11Enabled w.osc11EnabledEnv && (opts.forceOsc11 || opts.allowOsc11)) = false) :
    resolveAppearanceWithTrace w m st opts =
      osPhase
        { baseTrace w m st with
            osc11SkipReason :=
              some (if isOsc11Enabled w.osc11EnabledEnv then SkipReason.disabledByMode
                    else SkipReason.disabled) }
        w st := by
  simp only [resolveAppearanceWithTrace, baseTrace] at *
  simp [h1, h2, h3]

theorem resolve_throttle_skip (w : World) (m : Int) (st : Osc11State)
    (opts : ResolveOptions)
    (h1 : readOverrideFile w.file m w.now ≠ some OverrideAppearance.dark)
    (h2 : readOverrideFile w.file m w.now ≠ some OverrideAppearance.light)
    (h3 : (isOsc11Enabled w.osc11EnabledEnv && (opts.forceOsc11 || opts.allowOsc11)) = true)
    (h4 : ¬(st.disabledUntil ≤ w.now ∧
        (opts.forceOsc11 = true ∨
          getOsc11MinIntervalMs w.minIntervalEnv ≤ w.now - st.lastCheckedAt))) :
    resolveAppearanceWithTrace w m st opts =
      afterProbePhase
        { baseTrace w m st with
            osc11SkipReason :=
              some (if w.now < st.disabledUntil then SkipReason.cooldownUntil st.disabledUntil
                    else SkipReason.throttled (getOsc11MinIntervalMs w.minIntervalEnv)) }
        w st := by
  simp only [resolveAppearanceWithTrace, baseTrace] at *
  simp [h1, h2, h3, h4]

theorem resolve_probe_success (w : World) (m : Int) (st : Osc11State)
    (opts : ResolveOptions) (a : Appearance)
    (h1 : readOverrideFile w.file m w.now ≠ some OverrideAppearance.dark)
    (h2 : readOverrideFile w.file m w.now ≠ some OverrideAppearance.light)
    (h3 : (isOsc11Enabled w.osc11EnabledEnv && (opts.forceOsc11 || opts.allowOsc11)) = true)
    (h4 : st.disabledUntil ≤ w.now ∧
        (opts.forceOsc11 = true ∨
          getOsc11MinIntervalMs w.minIntervalEnv ≤ w.now - st.lastCheckedAt))
    (h5 : w.probeResult = some a) :
    resolveAppearanceWithTrace w m st opts =
      ({ baseTrace w m st with
          osc11Attempted := true
          osc11Result := some a
          osc11Failures := 0
          chosen := Chosen.osc11
          appearance := some a },
       { lastCheckedAt := w.now
         lastAppearance := some a
         failures := 0
         disabledUntil := st.disabledUntil }) := by
  simp only [resolveAppearanceWithTrace, baseTrace] at *
  simp [h1, h2, h3, h4, h5]

theorem resolve_probe_fail_breaker (w : World) (m : Int) (st : Osc11State)
    (opts : ResolveOptions)
    (h1 : readOverrideFile w.file m w.now ≠ some OverrideAppearance.dark)
    (h2 : readOverrideFile w.file m w.now ≠ some OverrideAppearance.light)
    (h3 : (isOsc11Enabled w.osc11EnabledEnv && (opts.forceOsc11 || opts.allowOsc11)) = true)
    (h4 : st.disabledUntil ≤ w.now ∧
        (opts.forceOsc11 = true ∨
          getOsc11MinIntervalMs w.minIntervalEnv ≤ w.now - st.lastCheckedAt))
    (h5 : w.probeResult = none)
    (h6 : OSC11_DISABLE_AFTER_FAILURES ≤ st.failures + 1) :
    resolveAppearanceWithTrace w m st opts =
      afterProbePhase
        { baseTrace w m st with
            osc11Attempted := true
            osc11Failures := 0
            osc11SkipReason := some (SkipReason.cooldown OSC11_DISABLE_COOLDOWN_MS) }
        w
        { lastCheckedAt := w.now
          lastAppearance := st.lastAppearance
          failures := 0
          disabledUntil := w.now + OSC11_DISABLE_COOLDOWN_MS } := by
  simp only [resolveAppearanceWithTrace, baseTrace] at *
  simp [h1, h2, h3, h4, h5, h6]

theorem resolve_probe_fail_count (w : World) (m : Int) (st : Osc11State)
    (opts : ResolveOptions)
    (h1 : readOverrideFile w.file m w.now ≠ some OverrideAppearance.dark)
    (h2 : readOverrideFile w.file m w.now ≠ some OverrideAppearance.light)
    (h3 : (isOsc11Enabled w.osc11EnabledEnv && (opts.forceOsc11 || opts.allowOsc11)) = true)
    (h4 : st.disabledUntil ≤ w.now ∧
        (opts.forceOsc11 = true ∨
          getOsc11MinIntervalMs w.minIntervalEnv ≤ w.now - st.lastCheckedAt))
    (h5 : w.probeResult = none)
    (h6 : ¬OSC11_DISABLE_AFTER_FAILURES ≤ st.failures + 1) :
    resolveAppearanceWithTrace w m st opts =
      afterProbePhase
        { baseTrace w m st with
            osc11Attempted := true
            osc11Failures := st.failures + 1 }
        w
        { lastCheckedAt := w.now
          lastAppearance := st.lastAppearance
          failures := st.failures + 1
          disabledUntil := st.disabledUntil } := by
  simp only [resolveAppearanceWithTrace, baseTrace] at *
  simp [h1, h2, h3, h4, h5, h6]

/-- Global facts about one resolution call, by exhaustive branch analysis:
the decision is absent exactly when the trace says `none`; the cache flag and
the `osc11-cache` trace coincide, and that path always returns the cached
value; `override` is chosen only when the override file decides; the cache is
never cleared (only kept or overwritten by a fresh probe answer);
`disabledUntil` is either kept or set to `now + cooldown`, hence not in the
past; and during an active cooldown the probe is never attempted. -/
theorem resolve_global (w : World) (m : Int) (st : Osc11State) (opts : ResolveOptions) :
    ((resolveAppearanceWithTrace w m st opts).1.appearance = none ↔
      (resolveAppearanceWithTrace w m st opts).1.chosen = Chosen.none) ∧
    ((resolveAppearanceWithTrace w m st opts).1.osc11UsedCache = true ↔
      (resolveAppearanceWithTrace w m st opts).1.chosen = Chosen.osc11Cache) ∧
    ((resolveAppearanceWithTrace w m st opts).1.chosen = Chosen.osc11Cache →
      (resolveAppearanceWithTrace w m st opts).1.appearance = st.lastAppearance) ∧
    ((resolveAppearanceWithTrace w m st opts).1.chosen = Chosen.override →
      readOverrideFile w.file m w.now = some OverrideAppearance.dark ∨
      readOverrideFile w.file m w.now = some OverrideAppearance.light) ∧
    ((resolveAppearanceWithTrace w m st opts).2.lastAppearance = st.lastAppearance ∨
      ((resolveAppearanceWithTrace w m st opts).2.lastAppearance = w.probeResult ∧
        w.probeResult ≠ none)) ∧
    ((resolveAppearanceWithTrace w m st opts).2.disabledUntil = st.disabledUntil ∨
      ((resolveAppearanceWithTrace w m st opts).2.disabledUntil =
          w.now + OSC11_DISABLE_COOLDOWN_MS ∧
        w.now ≤ (resolveAppearanceWithTrace w m st opts).2.disabledUntil)) ∧
    (w.now < st.disabledUntil →
      (resolveAppearanceWithTrace w m st opts).1.osc11Attempted = false) := by
  by_cases hd : readOverrideFile w.file m w.now = some OverrideAppearance.dark
  · rw [resolve_of_override w m st opts Appearance.dark
      (by simpa [Appearance.toOverride] using hd)]
    simp [baseTrace, hd]
  by_cases hl : readOverrideFile w.file m w.now = some OverrideAppearance.light
  · rw [resolve_of_override w m st opts Appearance.light
      (by simpa [Appearance.toOverride] using hl)]
    simp [baseTrace, hl]
  by_cases hen : (isOsc11Enabled w.osc11EnabledEnv && (opts.forceOsc11 || opts.allowOsc11)) = true
  case neg =>
    rw [resolve_not_allowed w m st opts hd hl (by simpa using hen)]
    rcases ho : w.osResult with _ | b
    · rw [osPhase_eq_none _ w st ho]
      simp [baseTrace]
    · rw [osPhase_eq_some _ w st b ho]
      simp [baseTrace]
  case pos =>
    by_cases hcan : st.disabledUntil ≤ w.now ∧
        (opts.forceOsc11 = true ∨
          getOsc11MinIntervalMs w.minIntervalEnv ≤ w.now - st.lastCheckedAt)
    case neg =>
      rw [resolve_throttle_skip w m st opts hd hl hen hcan]
      rcases hla : st.lastAppearance with _ | a
      · rw [afterProbePhase_eq_none _ w st hla]
        rcases ho : w.osResult with _ | b
        · rw [osPhase_eq_none _ w st ho]
          simp [baseTrace, hla]
        · rw [osPhase_eq_some _ w st b ho]
          simp [baseTrace, hla]
      · rw [afterProbePhase_eq_some _ w st a hla]
        simp [baseTrace, hla]
    case pos =>
      rcases hp : w.probeResult with _ | a
      · by_cases hf : OSC11_DISABLE_AFTER_FAILURES ≤ st.failures + 1
        · rw [resolve_probe_fail_breaker w m st opts hd hl hen hcan hp hf]
          rcases hla : st.lastAppearance with _ | a
          · rw [afterProbePhase_eq_none _ w _ (by simpa using hla)]
            rcases ho : w.osResult with _ | b
            · rw [osPhase_eq_none _ w _ ho]
              simp [baseTrace, hla, OSC11_DISABLE_COOLDOWN_MS]
              omega
            · rw [osPhase_eq_some _ w _ b ho]
              simp [baseTrace, hla, OSC11_DISABLE_COOLDOWN_MS]
              omega
          · rw [afterProbePhase_eq_some _ w _ a (by simpa using hla)]
            simp [baseTrace, hla, OSC11_DISABLE_COOLDOWN_MS]
            omega
        · rw [resolve_probe_fail_count w m st opts hd hl hen hcan hp hf]
          rcases hla : st.lastAppearance with _ | a
          · rw [afterProbePhase_eq_none _ w _ (by simpa using hla)]
            rcases ho : w.osResult with _ | b
            · rw [osPhase_eq_none _ w _ ho]
              simp [baseTrace, hla, OSC11_DISABLE_COOLDOWN_MS]
              omega
            · rw [osPhase_eq_some _ w _ b ho]
              simp [baseTrace, hla, OSC11_DISABLE_COOLDOWN_MS]
              omega
          · rw [afterProbePhase_eq_some _ w _ a (by simpa using hla)]
            simp [baseTrace, hla, OSC11_DISABLE_COOLDOWN_MS]
            omega
      · rw [resolve_probe_success w m st opts a hd hl hen hcan hp]
        simp [baseTrace, hp]
        omega

theorem osPhase_fst_attempted (base : DetectionTrace) (w : World) (st : Osc11State) :
    (osPhase base w st).1.osc11Attempted = base.osc11Attempted := by
  rcases ho : w.osResult with _ | b <;> simp [osPhase, ho]

theorem afterProbePhase_fst_attempted (base : DetectionTrace) (w : World) (st : Osc11State) :
    (afterProbePhase base w st).1.osc11Attempted = base.osc11Attempted := by
  rcases hla : st.lastAppearance with _ | a <;>
    rcases ho : w.osResult with _ | b <;>
    simp [afterProbePhase, osPhase, hla, ho]

theorem osPhase_snd (base : DetectionTrace) (w : World) (st : Osc11State) :
    (osPhase base w st).2 = st := by
  rcases ho : w.osResult with _ | b <;> simp [osPhase, ho]

theorem afterProbePhase_snd (base : DetectionTrace) (w : World) (st : Osc11State) :
    (afterProbePhase base w st).2 = st := by
  rcases hla : st.lastAppearance with _ | a <;>
    rcases ho : w.osResult with _ | b <;>
    simp [afterProbePhase, osPhase, hla, ho]

/-- With probing disabled or not allowed, the probe is never attempted —
whatever the override file says. -/
theorem resolve_fst_attempted_false (w : World) (m : Int) (st : Osc11State)
    (opts : ResolveOptions)
    (h3 : (isOsc11Enabled w.osc11EnabledEnv && (opts.forceOsc11 || opts.allowOsc11)) = false) :
    (resolveAppearanceWithTrace w m st opts).1.osc11Attempted = false := by
  by_cases hd : readOverrideFile w.file m w.now = some OverrideAppearance.dark
  · rw [resolve_of_override w m st opts Appearance.dark
      (by simpa [Appearance.toOverride] using hd)]
    simp [baseTrace]
  by_cases hl : readOverrideFile w.file m w.now = some OverrideAppearance.light
  · rw [resolve_of_override w m st opts Appearance.light
      (by simpa [Appearance.toOverride] using hl)]
    simp [baseTrace]
  rw [resolve_not_allowed w m st opts hd hl h3, osPhase_fst_attempted]
  simp [baseTrace]

/-- A forced resolve attempts the probe whenever the override falls through,
probing is enabled, and no cooldown is active — regardless of
`lastCheckedAt` and the minimum interval. -/
theorem forced_attempts (w : World) (m : Int) (st : Osc11State) (opts : ResolveOptions)
    (hforce : opts.forceOsc11 = true)
    (hen : isOsc11Enabled w.osc11EnabledEnv = true)
    (hov : readOverrideFile w.file m w.now = none ∨
      readOverrideFile w.file m w.now = some OverrideAppearance.auto)
    (hcool : st.disabledUntil ≤ w.now) :
    (resolveAppearanceWithTrace w m st opts).1.osc11Attempted = true := by
  have hd : readOverrideFile w.file m w.now ≠ some OverrideAppearance.dark := by
    rcases hov with h | h <;> simp [h]
  have hl : readOverrideFile w.file m w.now ≠ some OverrideAppearance.light := by
    rcases hov with h | h <;> simp [h]
  have hen2 : (isOsc11Enabled w.osc11EnabledEnv && (opts.forceOsc11 || opts.allowOsc11)) = true := by
    simp [hen, hforce]
  have hcan : st.disabledUntil ≤ w.now ∧
      (opts.forceOsc11 = true ∨
        getOsc11MinIntervalMs w.minIntervalEnv ≤ w.now - st.lastCheckedAt) :=
    ⟨hcool, Or.inl hforce⟩
  rcases hp : w.probeResult with _ | a
  · by_cases hf : OSC11_DISABLE_AFTER_FAILURES ≤ st.failures + 1
    · rw [resolve_probe_fail_breaker w m st opts hd hl hen2 hcan hp hf,
        afterProbePhase_fst_attempted]
    · rw [resolve_probe_fail_count w m st opts hd hl hen2 hcan hp hf,
        afterProbePhase_fst_attempted]
  · rw [resolve_probe_success w m st opts a hd hl hen2 hcan hp]

/-! ## Bounds of the reply-pattern groups -/

theorem matchChannel_none_short (cs : List Char)
    (h : (cs.span isHexDigit).1.length < 2) : matchChannel cs = none := by
  simp only [matchChannel]
  rw [if_neg (by omega)]

theorem matchChannel_none_long (cs : List Char)
    (h : 8 < (cs.span isHexDigit).1.length) : matchChannel cs = none := by
  simp only [matchChannel]
  rw [if_neg (by omega)]

theorem matchChannel_some (cs : List Char)
    (h1 : 2 ≤ (cs.span isHexDigit).1.length)
    (h2 : (cs.span isHexDigit).1.length ≤ 8) :
    matchChannel cs = some ((cs.span isHexDigit).1, (cs.span isHexDigit).2) := by
  simp only [matchChannel]
  rw [if_pos ⟨h1, h2⟩]

/-- When the trace of the OS phase starts undecided, its outcome mirrors the
OS oracle exactly. -/
theorem osPhase_concl (base : DetectionTrace) (w : World) (st : Osc11State) :
    (osPhase base w st).1.osResult = w.osResult ∧
      (∀ a, w.osResult = some a →
        (osPhase base w st).1.chosen = Chosen.os ∧
        (osPhase base w st).1.appearance = some a) := by
  rcases hos : w.osResult with _ | b
  · rw [osPhase_eq_none _ _ _ hos]
    refine ⟨by simp [hos], ?_⟩
    intro a ha
    exact absurd ha (by simp)
  · rw [osPhase_eq_some _ _ _ b hos]
    refine ⟨by simp [hos], ?_⟩
    intro a ha
    obtain rfl : b = a := Option.some.inj ha
    exact ⟨rfl, rfl⟩

/-! ## Claim theorems -/

/-- C1: whenever the Override Store yields a valid, fresh record whose
appearance is dark or light, resolution returns that appearance as the final
decision with trace `override`, without attempting the terminal probe, with
the probe state untouched, and with an outcome independent of whatever the
probe or the OS reader would have returned. -/
theorem override_wins_resolution (w : World) (m : Int) (st : Osc11State)
    (opts : ResolveOptions) (a : Appearance)
    (h : readOverrideFile w.file m w.now = some a.toOverride) :
    (resolveAppearanceWithTrace w m st opts).1.chosen = Chosen.override ∧
    (resolveAppearanceWithTrace w m st opts).1.appearance = some a ∧
    (resolveAppearanceWithTrace w m st opts).1.osc11Attempted = false ∧
    (resolveAppearanceWithTrace w m st opts).2 = st ∧
    (∀ p o : Option Appearance,
      resolveAppearanceWithTrace { w with probeResult := p, osResult := o } m st opts =
        resolveAppearanceWithTrace w m st opts) := by
  have hw := resolve_of_override w m st opts a h
  refine ⟨by rw [hw], by rw [hw], by rw [hw]; simp [baseTrace], by rw [hw], ?_⟩
  intro p o
  have h2 : readOverrideFile ({ w with probeResult := p, osResult := o } : World).file m
      ({ w with probeResult := p, osResult := o } : World).now = some a.toOverride := by
    simpa using h
  rw [resolve_of_override _ m st opts a h2, hw]
  simp [baseTrace]

/-- C1 witness: a fresh `dark` override record decided at a concrete input
where probe and OS would both have said `light`. -/
theorem override_wins_resolution_witness :
    (resolveAppearanceWithTrace witOverrideWorld 60000 resetOsc11State
        tickDefaultOptions).1.chosen = Chosen.override ∧
    (resolveAppearanceWithTrace witOverrideWorld 60000 resetOsc11State
        tickDefaultOptions).1.appearance = some Appearance.dark :=
  ⟨(override_wins_resolution witOverrideWorld 60000 resetOsc11State tickDefaultOptions
      Appearance.dark (by decide)).1,
   (override_wins_resolution witOverrideWorld 60000 resetOsc11State tickDefaultOptions
      Appearance.dark (by decide)).2.1⟩

/-- C5: every rejection path of the Override Store yields `none` (never a
hard error): unreadable or unparsable file, non-object payload, invalid
appearance value, positive max-age with a missing or unparsable `updatedAt`,
or a stale record; and an `auto` override falls through — the final trace is
never `override`. -/
theorem override_rejections :
    (∀ m now, readOverrideFile OverrideFileState.unreadable m now = none) ∧
    (∀ m now, readOverrideFile OverrideFileState.notObject m now = none) ∧
    (∀ app upd m now, parseOverrideAppearance app = none →
      readOverrideFile (OverrideFileState.obj app upd) m now = none) ∧
    (∀ app m now, 0 < m →
      readOverrideFile (OverrideFileState.obj app UpdatedAtField.missing) m now = none) ∧
    (∀ app m now, 0 < m →
      readOverrideFile (OverrideFileState.obj app UpdatedAtField.unparsable) m now = none) ∧
    (∀ app t m now, 0 < m → m < now - t →
      readOverrideFile (OverrideFileState.obj app (UpdatedAtField.parsed t)) m now = none) ∧
    (∀ w m st opts, readOverrideFile w.file m w.now = some OverrideAppearance.auto →
      (resolveAppearanceWithTrace w m st opts).1.chosen ≠ Chosen.override) := by
  refine ⟨fun m now => rfl, fun m now => rfl, ?_, ?_, ?_, ?_, ?_⟩
  · intro app upd m now h
    simp [readOverrideFile, h]
  · intro app m now hm
    simp only [readOverrideFile]
    rcases parseOverrideAppearance app with _ | a <;> simp [hm]
  · intro app m now hm
    simp only [readOverrideFile]
    rcases parseOverrideAppearance app with _ | a <;> simp [hm]
  · intro app t m now hm ht
    simp only [readOverrideFile]
    rcases parseOverrideAppearance app with _ | a <;> simp [hm, ht]
  · intro w m st opts h hc
    rcases (resolve_global w m st opts).2.2.2.1 hc with h2 | h2 <;> rw [h] at h2 <;>
      exact absurd h2 (by simp)

/-- C5 witness: a stale `dark` record (5 minutes old against a 60 s max-age)
reads as absent. -/
theorem override_rejections_witness :
    readOverrideFile (OverrideFileState.obj (some ("dark")) (UpdatedAtField.parsed 0))
      60000 300000 = none :=
  override_rejections.2.2.2.2.2.1 (some ("dark")) 0 60000 300000 (by decide) (by decide)

/-- C7: resolution is a total function (never raises): the decision is
absent exactly when the trace is `none`; when every source fails — override
unreadable or `auto`, probe yielding nothing with no cached success, OS
yielding nothing — the result is the decision `none` with trace `none`; and
each source failing merely falls through, so with override and probe failed
the OS answer (present or absent) becomes the outcome. -/
theorem resolve_never_raises :
    (∀ w m st opts,
      ((resolveAppearanceWithTrace w m st opts).1.appearance = none ↔
        (resolveAppearanceWithTrace w m st opts).1.chosen = Chosen.none)) ∧
    (∀ w m st opts,
      (readOverrideFile w.file m w.now = none ∨
        readOverrideFile w.file m w.now = some OverrideAppearance.auto) →
      st.lastAppearance = none → w.probeResult = none → w.osResult = none →
      (resolveAppearanceWithTrace w m st opts).1.appearance = none ∧
      (resolveAppearanceWithTrace w m st opts).1.chosen = Chosen.none) := by
  refine ⟨fun w m st opts => (resolve_global w m st opts).1, ?_⟩
  intro w m st opts hov hla hp hos
  have hd : readOverrideFile w.file m w.now ≠ some OverrideAppearance.dark := by
    rcases hov with h | h <;> simp [h]
  have hl : readOverrideFile w.file m w.now ≠ some OverrideAppearance.light := by
    rcases hov with h | h <;> simp [h]
  by_cases hen : (isOsc11Enabled w.osc11EnabledEnv && (opts.forceOsc11 || opts.allowOsc11)) = true
  case neg =>
    rw [resolve_not_allowed w m st opts hd hl (by simpa using hen),
      osPhase_eq_none _ w st hos]
    exact ⟨rfl, rfl⟩
  case pos =>
    by_cases hcan : st.disabledUntil ≤ w.now ∧
        (opts.forceOsc11 = true ∨
          getOsc11MinIntervalMs w.minIntervalEnv ≤ w.now - st.lastCheckedAt)
    case pos =>
      by_cases hf : OSC11_DISABLE_AFTER_FAILURES ≤ st.failures + 1
      · rw [resolve_probe_fail_breaker w m st opts hd hl hen hcan hp hf,
          afterProbePhase_eq_none _ w _ (by simpa using hla), osPhase_eq_none _ w _ hos]
        exact ⟨rfl, rfl⟩
      · rw [resolve_probe_fail_count w m st opts hd hl hen hcan hp hf,
          afterProbePhase_eq_none _ w _ (by simpa using hla), osPhase_eq_none _ w _ hos]
        exact ⟨rfl, rfl⟩
    case neg =>
      rw [resolve_throttle_skip w m st opts hd hl hen hcan,
        afterProbePhase_eq_none _ w st hla, osPhase_eq_none _ w st hos]
      exact ⟨rfl, rfl⟩

/-- C7 witness: with no override, a failed forced probe and no OS answer,
the decision is `none` with trace `none`. -/
theorem resolve_never_raises_witness :
    (resolveAppearanceWithTrace witFailWorld 60000 resetOsc11State
        sessionEnterOptions).1.appearance = none ∧
    (resolveAppearanceWithTrace witFailWorld 60000 resetOsc11State
        sessionEnterOptions).1.chosen = Chosen.none :=
  resolve_never_raises.2 witFailWorld 60000 resetOsc11State sessionEnterOptions
    (Or.inl (by decide)) (by decide) (by decide) (by decide)

/-- C8 counterexample: `src/index.ts` has no OS-fallback environment
variable.  With both environment variables the engine reads unset, the
override absent and the probe yielding nothing, the OS Appearance Reader is
still queried and decides (`light`, trace `os`) — contradicting the claim
that with the OS fallback not enabled by an environment variable the
decision is `none`. -/
theorem os_gating_cex :
    (resolveAppearanceWithTrace cexOsWorld 60000 resetOsc11State
        tickDefaultOptions).1.chosen = Chosen.os ∧
    (resolveAppearanceWithTrace cexOsWorld 60000 resetOsc11State
        tickDefaultOptions).1.appearance = some Appearance.light ∧
    cexOsWorld.osc11EnabledEnv = none ∧ cexOsWorld.minIntervalEnv = none := by
  decide

/-- C8 (amended): no environment variable gates the OS fallback.  Whenever
neither the override nor the probe (fresh or cached) yields a decision, the
OS Appearance Reader is queried — for every value of every environment
variable the engine reads — and its answer (or its absence) is the final
decision. -/
theorem os_fallback_unconditional (w : World) (m : Int) (st : Osc11State)
    (opts : ResolveOptions)
    (hov : readOverrideFile w.file m w.now = none ∨
      readOverrideFile w.file m w.now = some OverrideAppearance.auto)
    (hp : w.probeResult = none) (hla : st.lastAppearance = none) :
    (resolveAppearanceWithTrace w m st opts).1.osResult = w.osResult ∧
    (∀ a, w.osResult = some a →
      (resolveAppearanceWithTrace w m st opts).1.chosen = Chosen.os ∧
      (resolveAppearanceWithTrace w m st opts).1.appearance = some a) := by
  have hd : readOverrideFile w.file m w.now ≠ some OverrideAppearance.dark := by
    rcases hov with h | h <;> simp [h]
  have hl : readOverrideFile w.file m w.now ≠ some OverrideAppearance.light := by
    rcases hov with h | h <;> simp [h]
  by_cases hen : (isOsc11Enabled w.osc11EnabledEnv && (opts.forceOsc11 || opts.allowOsc11)) = true
  case neg =>
    rw [resolve_not_allowed w m st opts hd hl (by simpa using hen)]
    exact osPhase_concl _ w st
  case pos =>
    by_cases hcan : st.disabledUntil ≤ w.now ∧
        (opts.forceOsc11 = true ∨
          getOsc11MinIntervalMs w.minIntervalEnv ≤ w.now - st.lastCheckedAt)
    case pos =>
      by_cases hf : OSC11_DISABLE_AFTER_FAILURES ≤ st.failures + 1
      · rw [resolve_probe_fail_breaker w m st opts hd hl hen hcan hp hf,
          afterProbePhase_eq_none _ w _ (by simpa using hla)]
        exact osPhase_concl _ w _
      · rw [resolve_probe_fail_count w m st opts hd hl hen hcan hp hf,
          afterProbePhase_eq_none _ w _ (by simpa using hla)]
        exact osPhase_concl _ w _
    case neg =>
      rw [resolve_throttle_skip w m st opts hd hl hen hcan,
        afterProbePhase_eq_none _ w st hla]
      exact osPhase_concl _ w st

/-- C8 witness: at the concrete counterexample input the OS answer `light`
becomes the decision with trace `os`. -/
theorem os_fallback_unconditional_witness :
    (resolveAppearanceWithTrace cexOsWorld 60000 resetOsc11State
        tickDefaultOptions).1.chosen = Chosen.os ∧
    (resolveAppearanceWithTrace cexOsWorld 60000 resetOsc11State
        tickDefaultOptions).1.appearance = some Appearance.light :=
  (os_fallback_unconditional cexOsWorld 60000 resetOsc11State tickDefaultOptions
    (Or.inl (by decide)) (by decide) (by decide)).2 Appearance.light (by decide)

/-- C9: persistence is sparse — `saveConfig` deletes the settings file
exactly when the three persisted keys (`darkTheme`, `lightTheme`, `pollMs`)
all equal their documented defaults (in particular whenever the whole
configuration equals the defaults), and a written key is always the current
value and always differs from its default, so defaults are never written. -/
theorem saveConfig_sparse (home : String) (config : Config) :
    (saveConfig home config = SaveAction.delete ↔
      config.darkTheme = (DEFAULT_CONFIG home).darkTheme ∧
      config.lightTheme = (DEFAULT_CONFIG home).lightTheme ∧
      config.pollMs = (DEFAULT_CONFIG home).pollMs) ∧
    (∀ o, saveConfig home config = SaveAction.write o →
      (o.darkTheme = none ↔ config.darkTheme = (DEFAULT_CONFIG home).darkTheme) ∧
      (∀ v, o.darkTheme = some v →
        v = config.darkTheme ∧ v ≠ (DEFAULT_CONFIG home).darkTheme) ∧
      (o.lightTheme = none ↔ config.lightTheme = (DEFAULT_CONFIG home).lightTheme) ∧
      (∀ v, o.lightTheme = some v →
        v = config.lightTheme ∧ v ≠ (DEFAULT_CONFIG home).lightTheme) ∧
      (o.pollMs = none ↔ config.pollMs = (DEFAULT_CONFIG home).pollMs) ∧
      (∀ v, o.pollMs = some v →
        v = config.pollMs ∧ v ≠ (DEFAULT_CONFIG home).pollMs)) := by
  by_cases h1 : config.darkTheme = (DEFAULT_CONFIG home).darkTheme <;>
    by_cases h2 : config.lightTheme = (DEFAULT_CONFIG home).lightTheme <;>
    by_cases h3 : config.pollMs = (DEFAULT_CONFIG home).pollMs <;>
    simp [saveConfig, h1, h2, h3]

/-- C9 witness: a configuration differing from the defaults only in the dark
theme writes exactly that key, with a non-default value. -/
theorem saveConfig_sparse_witness :
    "gruvbox" = witConfig.darkTheme ∧
    "gruvbox" ≠ (DEFAULT_CONFIG ("/home/u")).darkTheme :=
  ((saveConfig_sparse ("/home/u") witConfig).2
    { darkTheme := some ("gruvbox"), lightTheme := none, pollMs := none }
    (by decide)).2.1 ("gruvbox") rfl

/-- C2 counterexample: the `/system-theme-push` handler calls `tick(ctx)`
with no options, so its resolution never attempts a probe — here with a
fresh `auto` override falling through, no cooldown, and a probe that would
have answered `dark`, the probe is skipped as `disabled-by-mode`.  This
contradicts the claim that the override-push trigger forces a fresh probe
attempt. -/
theorem push_no_probe_cex :
    (pushTickResolve cexPushWorld 60000 resetOsc11State).1.osc11Attempted = false ∧
    (pushTickResolve cexPushWorld 60000 resetOsc11State).1.osc11SkipReason =
      some SkipReason.disabledByMode ∧
    cexPushWorld.probeResult = some Appearance.dark ∧
    readOverrideFile cexPushWorld.file 60000 cexPushWorld.now =
      some OverrideAppearance.auto := by
  decide

/-- C2 (amended): a forced resolution (`forceOsc11 = true`, used by manual
refresh and session entry, both of which first reset the probe state)
attempts a fresh probe bypassing the minimum-interval throttle, but not
while an active circuit-breaker cooldown is in effect (`now <
disabledUntil`); the override-push trigger resolves without probe options
and never attempts a probe. -/
theorem forced_probe_gating :
    (∀ w m st opts,
      opts.forceOsc11 = true →
      isOsc11Enabled w.osc11EnabledEnv = true →
      (readOverrideFile w.file m w.now = none ∨
        readOverrideFile w.file m w.now = some OverrideAppearance.auto) →
      st.disabledUntil ≤ w.now →
      (resolveAppearanceWithTrace w m st opts).1.osc11Attempted = true) ∧
    (∀ w m st opts, w.now < st.disabledUntil →
      (resolveAppearanceWithTrace w m st opts).1.osc11Attempted = false) ∧
    (∀ w m st, (pushTickResolve w m st).1.osc11Attempted = false) ∧
    (∀ w m,
      isOsc11Enabled w.osc11EnabledEnv = true →
      (readOverrideFile w.file m w.now = none ∨
        readOverrideFile w.file m w.now = some OverrideAppearance.auto) →
      0 ≤ w.now →
      (refreshTriggerResolve w m).1.osc11Attempted = true ∧
      (sessionEnterResolve w m).1.osc11Attempted = true) := by
  refine ⟨fun w m st opts hf hen hov hcool => forced_attempts w m st opts hf hen hov hcool,
    fun w m st opts h => (resolve_global w m st opts).2.2.2.2.2.2 h,
    fun w m st =>
      resolve_fst_attempted_false w m st tickDefaultOptions (by simp [tickDefaultOptions]),
    ?_⟩
  intro w m hen hov hnow
  exact ⟨forced_attempts w m resetOsc11State refreshOptions rfl hen hov
      (by simpa [resetOsc11State] using hnow),
    forced_attempts w m resetOsc11State sessionEnterOptions rfl hen hov
      (by simpa [resetOsc11State] using hnow)⟩

/-- C2 witness: a forced resolve probes even though only 0 ms have elapsed
since the last check (throttle bypassed), with no cooldown active. -/
theorem forced_probe_gating_witness :
    (resolveAppearanceWithTrace witForceWorld 60000 witThrottleState
        refreshOptions).1.osc11Attempted = true :=
  forced_probe_gating.1 witForceWorld 60000 witThrottleState refreshOptions rfl
    (by decide) (Or.inl (by decide)) (by decide)

/-- C3: when the consecutive-failure counter reaches the threshold
(`OSC11_DISABLE_AFTER_FAILURES = 3`) on a failed attempt, the engine sets
`disabledUntil = now + cooldown` and resets the counter to 0; while
`now < disabledUntil` the probe is never attempted, force flag or not; and
`disabledUntil` is only ever kept or set to `now + cooldown`, hence is
always ≥ the time at which it was set. -/
theorem circuit_breaker_behaviour :
    (∀ w m st opts,
      (resolveAppearanceWithTrace w m st opts).1.osc11Attempted = true →
      w.probeResult = none →
      OSC11_DISABLE_AFTER_FAILURES ≤ st.failures + 1 →
      (resolveAppearanceWithTrace w m st opts).2.disabledUntil =
          w.now + OSC11_DISABLE_COOLDOWN_MS ∧
        (resolveAppearanceWithTrace w m st opts).2.failures = 0) ∧
    (∀ w m st opts, w.now < st.disabledUntil →
      (resolveAppearanceWithTrace w m st opts).1.osc11Attempted = false) ∧
    (∀ w m st opts,
      (resolveAppearanceWithTrace w m st opts).2.disabledUntil = st.disabledUntil ∨
        ((resolveAppearanceWithTrace w m st opts).2.disabledUntil =
            w.now + OSC11_DISABLE_COOLDOWN_MS ∧
          w.now ≤ (resolveAppearanceWithTrace w m st opts).2.disabledUntil)) := by
  refine ⟨?_, fun w m st opts h => (resolve_global w m st opts).2.2.2.2.2.2 h,
    fun w m st opts => (resolve_global w m st opts).2.2.2.2.2.1⟩
  intro w m st opts hatt hp hf
  by_cases hen : (isOsc11Enabled w.osc11EnabledEnv && (opts.forceOsc11 || opts.allowOsc11)) = true
  case neg =>
    exact absurd hatt
      (by simp [resolve_fst_attempted_false w m st opts (by simpa using hen)])
  case pos =>
    by_cases hd : readOverrideFile w.file m w.now = some OverrideAppearance.dark
    · rw [resolve_of_override w m st opts Appearance.dark
        (by simpa [Appearance.toOverride] using hd)] at hatt
      simp [baseTrace] at hatt
    by_cases hl : readOverrideFile w.file m w.now = some OverrideAppearance.light
    · rw [resolve_of_override w m st opts Appearance.light
        (by simpa [Appearance.toOverride] using hl)] at hatt
      simp [baseTrace] at hatt
    by_cases hcan : st.disabledUntil ≤ w.now ∧
        (opts.forceOsc11 = true ∨
          getOsc11MinIntervalMs w.minIntervalEnv ≤ w.now - st.lastCheckedAt)
    case neg =>
      rw [resolve_throttle_skip w m st opts hd hl hen hcan,
        afterProbePhase_fst_attempted] at hatt
      simp [baseTrace] at hatt
    case pos =>
      rw [resolve_probe_fail_breaker w m st opts hd hl hen hcan hp hf, afterProbePhase_snd]
      exact ⟨rfl, rfl⟩

/-- C3 witness: the third consecutive failure (two already recorded) opens
the breaker at a concrete input: `disabledUntil` becomes `now + 60000` and
the counter resets. -/
theorem circuit_breaker_behaviour_witness :
    (resolveAppearanceWithTrace witFailWorld 60000 witBreakerState
        allowOnlyOptions).2.disabledUntil = witFailWorld.now + OSC11_DISABLE_COOLDOWN_MS ∧
    (resolveAppearanceWithTrace witFailWorld 60000 witBreakerState
        allowOnlyOptions).2.failures = 0 :=
  circuit_breaker_behaviour.1 witFailWorld 60000 witBreakerState allowOnlyOptions
    (by decide) (by decide) (by decide)

/-- C4: with probing enabled and allowed, no deciding override, a cached
probe success, no active cooldown, and the next attempt not yet due under
the throttle (and not forced), resolution returns the cached appearance with
trace `probe-cache` (`osc11-cache`), does not attempt the probe, leaves the
state untouched, and is independent of what the OS reader would return;
moreover — globally — the cache flag holds exactly on the `osc11-cache`
trace, and that trace always carries the cached value, so this is the only
path where a previously obtained probe result is used. -/
theorem probe_cache_path :
    (∀ w m st opts a,
      isOsc11Enabled w.osc11EnabledEnv = true →
      opts.allowOsc11 = true →
      opts.forceOsc11 = false →
      (readOverrideFile w.file m w.now = none ∨
        readOverrideFile w.file m w.now = some OverrideAppearance.auto) →
      st.lastAppearance = some a →
      st.disabledUntil ≤ w.now →
      w.now - st.lastCheckedAt < getOsc11MinIntervalMs w.minIntervalEnv →
      (resolveAppearanceWithTrace w m st opts).1.chosen = Chosen.osc11Cache ∧
      (resolveAppearanceWithTrace w m st opts).1.appearance = some a ∧
      (resolveAppearanceWithTrace w m st opts).1.osc11Attempted = false ∧
      (resolveAppearanceWithTrace w m st opts).2 = st ∧
      (∀ o, resolveAppearanceWithTrace { w with osResult := o } m st opts =
        resolveAppearanceWithTrace w m st opts)) ∧
    (∀ w m st opts,
      ((resolveAppearanceWithTrace w m st opts).1.osc11UsedCache = true ↔
        (resolveAppearanceWithTrace w m st opts).1.chosen = Chosen.osc11Cache) ∧
      ((resolveAppearanceWithTrace w m st opts).1.chosen = Chosen.osc11Cache →
        (resolveAppearanceWithTrace w m st opts).1.appearance = st.lastAppearance)) := by
  refine ⟨?_, fun w m st opts =>
    ⟨(resolve_global w m st opts).2.1, (resolve_global w m st opts).2.2.1⟩⟩
  intro w m st opts a hen hallow hforce hov hcache hcool hthrottle
  have hd : readOverrideFile w.file m w.now ≠ some OverrideAppearance.dark := by
    rcases hov with h | h <;> simp [h]
  have hl : readOverrideFile w.file m w.now ≠ some OverrideAppearance.light := by
    rcases hov with h | h <;> simp [h]
  have hen2 : (isOsc11Enabled w.osc11EnabledEnv && (opts.forceOsc11 || opts.allowOsc11)) = true := by
    simp [hen, hallow]
  have hcan : ¬(st.disabledUntil ≤ w.now ∧
      (opts.forceOsc11 = true ∨
        getOsc11MinIntervalMs w.minIntervalEnv ≤ w.now - st.lastCheckedAt)) := by
    intro hc
    rcases hc.2 with hfo | hint
    · rw [hforce] at hfo
      cases hfo
    · omega
  have hw := resolve_throttle_skip w m st opts hd hl hen2 hcan
  refine ⟨?_, ?_, ?_, ?_, ?_⟩
  · rw [hw, afterProbePhase_eq_some _ w st a hcache]
  · rw [hw, afterProbePhase_eq_some _ w st a hcache]
  · rw [hw, afterProbePhase_eq_some _ w st a hcache]
    simp [baseTrace]
  · rw [hw, afterProbePhase_eq_some _ w st a hcache]
  · intro o
    have hd2 : readOverrideFile ({ w with osResult := o } : World).file m
        ({ w with osResult := o } : World).now ≠ some OverrideAppearance.dark := by
      simpa using hd
    have hl2 : readOverrideFile ({ w with osResult := o } : World).file m
        ({ w with osResult := o } : World).now ≠ some OverrideAppearance.light := by
      simpa using hl
    have hen2b : (isOsc11Enabled ({ w with osResult := o } : World).osc11EnabledEnv &&
        (opts.forceOsc11 || opts.allowOsc11)) = true := by
      simpa using hen2
    have hcan2 : ¬(st.disabledUntil ≤ ({ w with osResult := o } : World).now ∧
        (opts.forceOsc11 = true ∨
          getOsc11MinIntervalMs ({ w with osResult := o } : World).minIntervalEnv ≤
            ({ w with osResult := o } : World).now - st.lastCheckedAt)) := by
      simpa using hcan
    rw [resolve_throttle_skip _ m st opts hd2 hl2 hen2b hcan2, hw,
      afterProbePhase_eq_some _ _ st a hcache, afterProbePhase_eq_some _ w st a hcache]
    simp [baseTrace]

/-- C4 witness: a probe that answered `dark` 10 ms ago is throttled, and the
cached `dark` is returned with trace `osc11-cache`, not the OS answer. -/
theorem probe_cache_path_witness :
    (resolveAppearanceWithTrace witCacheWorld 60000 witCacheState
        allowOnlyOptions).1.chosen = Chosen.osc11Cache ∧
    (resolveAppearanceWithTrace witCacheWorld 60000 witCacheState
        allowOnlyOptions).1.appearance = some Appearance.dark := by
  have h := probe_cache_path.1 witCacheWorld 60000 witCacheState allowOnlyOptions
    Appearance.dark (by decide) rfl rfl (Or.inl (by decide)) (by decide) (by decide)
    (by decide)
  exact ⟨h.1, h.2.1⟩

/-- C10: the cached probe result never expires by age — whenever probing is
enabled and allowed, the override does not decide, a success is cached and
this call obtains no fresh success, the cached appearance is the decision,
for arbitrary `now`, `lastCheckedAt` and `disabledUntil`; a resolution call
never clears the cache (it only keeps it or overwrites it with a fresh
answer); only the session-entry reset clears it. -/
theorem probe_cache_never_expires :
    (∀ w m st opts a,
      isOsc11Enabled w.osc11EnabledEnv = true →
      (opts.forceOsc11 || opts.allowOsc11) = true →
      (readOverrideFile w.file m w.now = none ∨
        readOverrideFile w.file m w.now = some OverrideAppearance.auto) →
      st.lastAppearance = some a →
      w.probeResult = none →
      (resolveAppearanceWithTrace w m st opts).1.appearance = some a ∧
      (resolveAppearanceWithTrace w m st opts).1.chosen = Chosen.osc11Cache) ∧
    (∀ w m st opts,
      (resolveAppearanceWithTrace w m st opts).2.lastAppearance = st.lastAppearance ∨
        ((resolveAppearanceWithTrace w m st opts).2.lastAppearance = w.probeResult ∧
          w.probeResult ≠ none)) ∧
    resetOsc11State.lastAppearance = none := by
  refine ⟨?_, fun w m st opts => (resolve_global w m st opts).2.2.2.2.1, rfl⟩
  intro w m st opts a hen hflag hov hcache hp
  have hd : readOverrideFile w.file m w.now ≠ some OverrideAppearance.dark := by
    rcases hov with h | h <;> simp [h]
  have hl : readOverrideFile w.file m w.now ≠ some OverrideAppearance.light := by
    rcases hov with h | h <;> simp [h]
  have hen2 : (isOsc11Enabled w.osc11EnabledEnv && (opts.forceOsc11 || opts.allowOsc11)) = true := by
    simp [hen, hflag]
  by_cases hcan : st.disabledUntil ≤ w.now ∧
      (opts.forceOsc11 = true ∨
        getOsc11MinIntervalMs w.minIntervalEnv ≤ w.now - st.lastCheckedAt)
  case pos =>
    by_cases hfail : OSC11_DISABLE_AFTER_FAILURES ≤ st.failures + 1
    · rw [resolve_probe_fail_breaker w m st opts hd hl hen2 hcan hp hfail,
        afterProbePhase_eq_some _ w _ a (by simpa using hcache)]
      exact ⟨rfl, rfl⟩
    · rw [resolve_probe_fail_count w m st opts hd hl hen2 hcan hp hfail,
        afterProbePhase_eq_some _ w _ a (by simpa using hcache)]
      exact ⟨rfl, rfl⟩
  case neg =>
    rw [resolve_throttle_skip w m st opts hd hl hen2 hcan,
      afterProbePhase_eq_some _ w st a hcache]
    exact ⟨rfl, rfl⟩

/-- C10 witness: a `dark` probe success cached two billion milliseconds
before the current call is still returned after a fresh probe failure. -/
theorem probe_cache_never_expires_witness :
    (resolveAppearanceWithTrace witAncientWorld 60000 witAncientCacheState
        allowOnlyOptions).1.appearance = some Appearance.dark ∧
    (resolveAppearanceWithTrace witAncientWorld 60000 witAncientCacheState
        allowOnlyOptions).1.chosen = Chosen.osc11Cache :=
  probe_cache_never_expires.1 witAncientWorld 60000 witAncientCacheState allowOnlyOptions
    Appearance.dark (by decide) rfl (Or.inl (by decide)) (by decide) (by decide)

/-- C6 counterexample: the reply pattern requires 2–8 hex digits per channel,
so the one-digit reply `rgb:f/f/f` is rejected outright (the probe yields
nothing) even though the most-significant-byte reading `to8Bit` would give
255 (→ light under the claim); and the grey `rgb:80/80/80` — whose exact
luminance `0.299·128 + 0.587·128 + 0.114·128` is exactly 128 — classifies
`dark`, because the double-precision sum evaluates to
127.99999999999999 < 128.  Both contradict the claim. -/
theorem probe_parse_cex :
    probeScriptOutcome (("rgb:f/f/f").toList) = none ∧
    to8Bit (['f']) = 255 ∧
    probeScriptOutcome (("rgb:80/80/80").toList) = some Appearance.dark ∧
    299 * 128 + 587 * 128 + 114 * 128 = 128000 := by
  decide

/-- C6 (amended): the probe parses three hex channels of 2–8 digits each
(shorter or longer runs fail the pattern), takes the most significant byte
of each, and classifies dark iff the double-precision value of
`0.299*R + 0.587*G + 0.114*B` is < 128; (0,0,0) → dark and
(255,255,255) → light, while exact-luminance-128 replies may classify
either way depending on floating-point rounding. -/
theorem luminance_classification :
    (∀ resp g1 g2 g3, findRgb resp = some (g1, g2, g3) →
      probeScriptOutcome resp =
        some (if doubleLumIsDark (to8Bit g1) (to8Bit g2) (to8Bit g3) then Appearance.dark
              else Appearance.light)) ∧
    (∀ c1 c2 rest, to8Bit (c1 :: c2 :: rest) = 16 * hexDigitVal c1 + hexDigitVal c2) ∧
    (∀ cs, (cs.span isHexDigit).1.length < 2 → matchChannel cs = none) ∧
    (∀ cs, 8 < (cs.span isHexDigit).1.length → matchChannel cs = none) ∧
    (∀ cs, 2 ≤ (cs.span isHexDigit).1.length → (cs.span isHexDigit).1.length ≤ 8 →
      matchChannel cs = some ((cs.span isHexDigit).1, (cs.span isHexDigit).2)) ∧
    probeScriptOutcome (("rgb:00/00/00").toList) = some Appearance.dark ∧
    probeScriptOutcome (("rgb:ff/ff/ff").toList) = some Appearance.light ∧
    probeScriptOutcome (("rgb:8000/8000/8000").toList) = some Appearance.dark ∧
    doubleLumIsDark 0 0 0 = true ∧ doubleLumIsDark 255 255 255 = false := by
  refine ⟨?_, ?_, matchChannel_none_short, matchChannel_none_long, matchChannel_some,
    by decide, by decide, by decide, by decide, by decide⟩
  · intro resp g1 g2 g3 h
    unfold probeScriptOutcome
    rw [h]
    cases hdark : doubleLumIsDark (to8Bit g1) (to8Bit g2) (to8Bit g3) <;> simp [hdark]
  · intro c1 c2 rest
    simp only [to8Bit, parseHexDigits, List.foldl]
    omega

/-- C6 witness: a three-channel reply with two digits per channel is parsed
and classified through the double-precision luminance comparison. -/
theorem luminance_classification_witness :
    probeScriptOutcome (("rgb:aa/bb/cc").toList) =
      some (if doubleLumIsDark (to8Bit (['a', 'a'])) (to8Bit (['b', 'b']))
              (to8Bit (['c', 'c'])) then Appearance.dark else Appearance.light) :=
  luminance_classification.1 (("rgb:aa/bb/cc").toList) (['a', 'a']) (['b', 'b'])
    (['c', 'c']) (by decide)

end ThemeSync
